import Mathlib

/-!
Shallow embedding of the event lifecycle / dual-store consistency core of the
travelapp repository, together with theorems checking the natural-language
specification against it.

Embedded source artifacts:
* the PostgreSQL schema and the `update_participant_count` trigger
  (DATA_SCHEMA.md): `DB`, `insertParticipant`, `deleteParticipant`,
  `deleteEventCascade`;
* the `create-event` edge function: `createEvent`;
* the `join-event` edge function: `joinHandler`, plus a two-request
  interleaving machine for the concurrent double-join race;
* the client map store (`src/stores/mapStore.ts`): `addEvent`, `updateEvent`,
  `removeEvent`, `setEvents`;
* the realtime change-feed handlers and re-subscription logic of the map
  screen (`src/app/(tabs)/index.tsx`): `handleInsert`, `handleUpdate`,
  `handleDelete`, `subscribeRealtimeTrace`.

Timestamps are modelled as integer milliseconds, ids as naturals, and the
floating-point haversine distance as an abstract integer-valued function
supplied as a parameter (the claims under study are about which code paths
apply the distance filter, not about trigonometry).
-/

namespace TravelApp

abbrev UserId := Nat
abbrev EventId := Nat

/-- Lifecycle status of an event: the `event_status` enum of the schema. -/
inductive EvStatus where
  | active
  | expired
deriving DecidableEq, Repr

/-- An `events` row, restricted to the columns the claims touch. -/
structure EventRow where
  id : EventId
  host : UserId
  participant_count : Int
  status : EvStatus
  verified_only : Bool
deriving DecidableEq, Repr

/-- An `event_participants` row: composite primary key (event_id, user_id). -/
structure PartRow where
  event : EventId
  user : UserId
deriving DecidableEq, Repr

/-- The relational store: `events` and `event_participants` tables. -/
structure DB where
  events : List EventRow
  participants : List PartRow
deriving DecidableEq, Repr

/-- Insert into `event_participants`; the AFTER INSERT trigger
`update_participant_count` increments the owning event's `participant_count`
by exactly one (`UPDATE events SET participant_count = participant_count + 1
WHERE id = NEW.event_id`). -/
def insertParticipant (db : DB) (e : EventId) (u : UserId) : DB :=
  { events := db.events.map fun r =>
      if r.id = e then { r with participant_count := r.participant_count + 1 } else r,
    participants := db.participants ++ [⟨e, u⟩] }

/-- Delete from `event_participants`; the AFTER DELETE trigger decrements the
owning event's `participant_count` by exactly one. -/
def deleteParticipant (db : DB) (e : EventId) (u : UserId) : DB :=
  { events := db.events.map fun r =>
      if r.id = e then { r with participant_count := r.participant_count - 1 } else r,
    participants := db.participants.filter fun p => ¬(p.event = e ∧ p.user = u) }

/-- Insert an `events` row. -/
def insertEvent (db : DB) (row : EventRow) : DB :=
  { db with events := db.events ++ [row] }

/-- Delete an `events` row; the schema's `ON DELETE CASCADE` on
`event_participants.event_id` removes that event's participant rows with it. -/
def deleteEventCascade (db : DB) (e : EventId) : DB :=
  { events := db.events.filter fun r => r.id ≠ e,
    participants := db.participants.filter fun p => p.event ≠ e }

/-- The `participant_count` column of event `e`, read directly from the store. -/
def countOf (db : DB) (e : EventId) : Option Int :=
  (db.events.find? fun r => r.id = e).map (·.participant_count)

/-- The participant rows belonging to event `e`. -/
def partsOf (db : DB) (e : EventId) : List PartRow :=
  db.participants.filter fun p => p.event = e

/-- The caller's current count of own active events: the create-event handler's
query `from('events').select(count).eq('host_id', user.id).eq('status', 'active')`. -/
def activeCountOf (db : DB) (u : UserId) : Nat :=
  (db.events.filter fun r => r.host = u ∧ r.status = EvStatus.active).length

/-- Whether event id `e` has a row in `events`. -/
def eventExists (db : DB) (e : EventId) : Bool :=
  db.events.any fun r => r.id = e

-- ── create-event edge function ─────────────────────────────────────────────

/-- Request body of `create-event`, restricted to the validated fields. The
title is a list of characters (so the handler's `title.trim().length` is
`(trimChars title).length`); coordinates are abstracted to their finiteness
flags, which is all the handler inspects; times are integer milliseconds. -/
structure CreateInput where
  title : List Char
  expiresAtMs : Int
  nowMs : Int
  latFinite : Bool
  lonFinite : Bool
  verifiedOnly : Bool
deriving DecidableEq, Repr

/-- JavaScript's `String.prototype.trim` on a character list (whitespace
restricted to the space character, the only case the claims exercise). -/
def trimChars (l : List Char) : List Char :=
  ((l.dropWhile (· = ' ')).reverse.dropWhile (· = ' ')).reverse

/-- One hour in milliseconds, the handler's `ONE_HOUR_MS`. -/
def ONE_HOUR_MS : Int := 3600000

/-- Mirror of the handler's body-shape check:
`title.trim().length < 10 || title.trim().length > 60 || !isFinite(latitude)
|| !isFinite(longitude)` (the typeof checks hold by typing in the model). -/
def createBodyInvalid (inp : CreateInput) : Bool :=
  (trimChars inp.title).length < 10 ∨ (trimChars inp.title).length > 60 ∨
    ¬inp.latFinite ∨ ¬inp.lonFinite

/-- Mirror of the handler's expiry-window check:
`diffMs < ONE_HOUR_MS || diffMs > 26 * ONE_HOUR_MS`. -/
def expiryWindowInvalid (inp : CreateInput) : Bool :=
  inp.expiresAtMs - inp.nowMs < ONE_HOUR_MS ∨
    inp.expiresAtMs - inp.nowMs > 26 * ONE_HOUR_MS

/-- Outcomes of the external calls the `create-event` handler makes, which are
not determined by the relational store's state. -/
structure CreateEnv where
  profileFetchOk : Bool
  verified : Bool
  eventInsertOk : Bool
  participantInsertOk : Bool
  streamCreateOk : Bool
deriving DecidableEq, Repr

/-- Responses of the `create-event` handler. -/
inductive CreateResult where
  | invalidBody
  | invalidExpiry
  | internalError
  | limitReached
  | eventInsertFailed
  | participantInsertFailed
  | chatInitFailed
  | created (e : EventId)
deriving DecidableEq, Repr

/-- Store and messaging operations the handler issues, recorded as a trace. -/
inductive StoreOp where
  | insertEventOp (e : EventId) (pcount : Int)
  | insertParticipantOp (e : EventId) (u : UserId)
  | deleteEventOp (e : EventId)
  | deleteParticipantOp (e : EventId) (u : UserId)
  | streamCreateChannel (e : EventId)
deriving DecidableEq, Repr

/-- The `events` row the create-event handler inserts: fresh id
(`gen_random_uuid()`), the caller as host, `participant_count: 0`,
`status: 'active'`. -/
def newEventRow (caller : UserId) (freshId : EventId) (vo : Bool) : EventRow :=
  { id := freshId, host := caller, participant_count := 0,
    status := .active, verified_only := vo }

/-- Shallow embedding of the `create-event` edge function proper; see the
module docstring. Returns the store after the call, the response, and the
trace of issued operations. -/
def createEvent (db : DB) (env : CreateEnv) (caller : UserId) (freshId : EventId)
    (inp : CreateInput) : DB × CreateResult × List StoreOp :=
  if createBodyInvalid inp then (db, .invalidBody, [])
  else if expiryWindowInvalid inp then (db, .invalidExpiry, [])
  else if ¬env.profileFetchOk then (db, .internalError, [])
  else if ¬env.verified ∧ activeCountOf db caller ≥ 1 then (db, .limitReached, [])
  else if ¬env.eventInsertOk then (db, .eventInsertFailed, [])
  else
    let row : EventRow := newEventRow caller freshId inp.verifiedOnly
    let db1 := insertEvent db row
    if ¬env.participantInsertOk then
      (deleteEventCascade db1 freshId, .participantInsertFailed,
        [.insertEventOp freshId 0, .deleteEventOp freshId])
    else
      let db2 := insertParticipant db1 freshId caller
      if ¬env.streamCreateOk then
        (deleteEventCascade db2 freshId, .chatInitFailed,
          [.insertEventOp freshId 0, .insertParticipantOp freshId caller,
            .streamCreateChannel freshId, .deleteEventOp freshId])
      else
        (db2, .created freshId,
          [.insertEventOp freshId 0, .insertParticipantOp freshId caller,
            .streamCreateChannel freshId])

-- ── join-event edge function ───────────────────────────────────────────────

/-- Result of the handler's read of the caller's profile row:
`profiles.select('verification_status').eq('id', user.id).single()`. -/
inductive ProfileFetch where
  | fetched (verificationStatus : String)
  | storeError
deriving DecidableEq, Repr

/-- Result of the `event_participants` insert attempt: success, a `23505`
unique-constraint violation from a concurrent duplicate insert, or any other
store error. -/
inductive InsertOutcome where
  | inserted
  | uniqueConflict
  | otherFailure
deriving DecidableEq, Repr

/-- Outcomes of the external calls the `join-event` handler makes. The row
seen by the pre-existing-row check and the outcome of the insert are separate
fields because a concurrent request may insert the same pair between the two. -/
structure JoinEnv where
  eventRow : Option EventRow
  profileFetch : ProfileFetch
  rowAtCheck : Bool
  insertOutcome : InsertOutcome
  streamAddOk : Bool
deriving DecidableEq, Repr

/-- Responses of the `join-event` handler. -/
inductive JoinResult where
  | notFound
  | expiredSoft
  | verifiedOnlySoft
  | alreadyMember
  | joinedNew
  | insertFailed
  | joinChatFailed
deriving DecidableEq, Repr

/-- Writes and messaging calls a single `join-event` call performed. -/
structure JoinEffects where
  insertedRow : Bool
  deletedRow : Bool
  streamAddAttempted : Bool
deriving DecidableEq, Repr

/-- No effects performed. -/
def JoinEffects.none : JoinEffects :=
  { insertedRow := false, deletedRow := false, streamAddAttempted := false }

/-- Shallow embedding of the `join-event` edge function (one call). External
results come from `env`; the pair below is the handler's response together
with the effects it performed. Points mirrored from the source:
* `status !== 'active'` short-circuits to the soft EVENT_EXPIRED response;
* on `verified_only`, a profile-fetch error or any status other than
  `'verified'` yields the soft VERIFIED_ONLY response;
* a pre-existing row leads to a best-effort `addMembers` (failure swallowed)
  and `already_member: true`;
* an insert hitting `23505` returns `already_member: true` with no further
  calls;
* any other insert failure is a 500;
* an `addMembers` failure after a fresh insert deletes that row and is a 500. -/
def joinHandler (env : JoinEnv) : JoinResult × JoinEffects :=
  match env.eventRow with
  | Option.none => (.notFound, .none)
  | some ev =>
    if ev.status ≠ EvStatus.active then (.expiredSoft, .none)
    else if ev.verified_only ∧
        ¬(env.profileFetch = ProfileFetch.fetched "verified") then
      (.verifiedOnlySoft, .none)
    else if env.rowAtCheck then
      (.alreadyMember,
        { insertedRow := false, deletedRow := false, streamAddAttempted := true })
    else
      match env.insertOutcome with
      | .uniqueConflict => (.alreadyMember, .none)
      | .otherFailure => (.insertFailed, .none)
      | .inserted =>
        if env.streamAddOk then
          (.joinedNew,
            { insertedRow := true, deletedRow := false, streamAddAttempted := true })
        else
          (.joinChatFailed,
            { insertedRow := true, deletedRow := true, streamAddAttempted := true })

-- ── two concurrent join-event requests on the same (event, caller) ─────────

/-- Program counter of one in-flight join request for a fixed active,
non-gated event and caller, on the happy path for the messaging provider
(`addMembers` succeeds). `startPc` is before the pre-existing-row check;
`insertPc` before the participant insert; `addNewPc` / `addOldPc` before the
channel-member add on the fresh-insert / already-joined paths; `doneNew` and
`doneOld` carry the response (`already_member` false / true). -/
inductive RPc where
  | startPc
  | insertPc
  | addNewPc
  | addOldPc
  | doneNew
  | doneOld
deriving DecidableEq, Repr

/-- Joint configuration of the store and two concurrent join requests for the
same (event, caller) pair: `row` is whether the `event_participants` row for
the pair exists (the composite primary key rules out a second row), `mem`
whether the caller is a member of the event's channel. -/
structure Cfg where
  row : Bool
  mem : Bool
  a : RPc
  b : RPc
deriving DecidableEq, Repr

/-- One atomic step of a single request, as the join-event handler executes
it against the shared store: the pre-existing-row check reads `row`; the
insert succeeds precisely when the row is still absent and otherwise raises
the `23505` conflict, which the handler maps to `already_member: true`
without a channel-member add; both add paths put the caller in the channel
member set. -/
def stepPc (row : Bool) (p : RPc) : Bool × Bool × RPc :=
  match p with
  | .startPc => (row, false, if row then .addOldPc else .insertPc)
  | .insertPc => if row then (row, false, .doneOld) else (true, false, .addNewPc)
  | .addNewPc => (row, true, .doneNew)
  | .addOldPc => (row, true, .doneOld)
  | .doneNew => (row, false, .doneNew)
  | .doneOld => (row, false, .doneOld)

/-- Step the request selected by the scheduler (`true` = request A). -/
def stepOne (c : Cfg) (useA : Bool) : Cfg :=
  if useA then
    let (r, m, p) := stepPc c.row c.a
    { row := r, mem := c.mem ∨ m, a := p, b := c.b }
  else
    let (r, m, p) := stepPc c.row c.b
    { row := r, mem := c.mem ∨ m, a := c.a, b := p }

/-- Run a schedule (list of scheduler choices) from a configuration. -/
def runSched (c : Cfg) (sched : List Bool) : Cfg :=
  sched.foldl stepOne c

/-- Initial configuration of the double-join race: the pair has no
participant row and no channel membership, both requests at the start. -/
def initCfg : Cfg :=
  { row := false, mem := false, a := .startPc, b := .startPc }

/-- A request has produced its response. -/
def RPc.isDone (p : RPc) : Bool :=
  p = RPc.doneNew ∨ p = RPc.doneOld

/-- All configurations reachable from `initCfg` under any interleaving of the
two requests (closure checked by `reachCfgs_closed`). -/
def reachCfgs : List Cfg :=
  [⟨false, false, .startPc, .startPc⟩,
   ⟨false, false, .insertPc, .startPc⟩,
   ⟨false, false, .startPc, .insertPc⟩,
   ⟨true, false, .addNewPc, .startPc⟩,
   ⟨false, false, .insertPc, .insertPc⟩,
   ⟨true, false, .startPc, .addNewPc⟩,
   ⟨true, true, .doneNew, .startPc⟩,
   ⟨true, false, .addNewPc, .addOldPc⟩,
   ⟨true, false, .addNewPc, .insertPc⟩,
   ⟨true, false, .insertPc, .addNewPc⟩,
   ⟨true, false, .addOldPc, .addNewPc⟩,
   ⟨true, true, .startPc, .doneNew⟩,
   ⟨true, true, .doneNew, .addOldPc⟩,
   ⟨true, true, .addNewPc, .doneOld⟩,
   ⟨true, true, .doneNew, .insertPc⟩,
   ⟨true, false, .addNewPc, .doneOld⟩,
   ⟨true, false, .doneOld, .addNewPc⟩,
   ⟨true, true, .insertPc, .doneNew⟩,
   ⟨true, true, .doneOld, .addNewPc⟩,
   ⟨true, true, .addOldPc, .doneNew⟩,
   ⟨true, true, .doneNew, .doneOld⟩,
   ⟨true, true, .doneOld, .doneNew⟩]

-- ── client map store (src/stores/mapStore.ts) ──────────────────────────────

/-- The client-side event value held by the map store (`Event` in
`src/types`), restricted to the fields the map logic reads. Coordinates are
integers; the floating-point distance computation is abstracted by a
function parameter where needed. -/
structure ClientEvent where
  id : Nat
  status : EvStatus
  lat : Int
  lon : Int
  pcount : Int
deriving DecidableEq, Repr

/-- `setEvents`: replaces the whole list. -/
def setEvents (_evts : List ClientEvent) (new : List ClientEvent) : List ClientEvent :=
  new

/-- `addEvent`: appends unless an event with the same id is already present. -/
def addEvent (evts : List ClientEvent) (e : ClientEvent) : List ClientEvent :=
  if evts.any fun x => x.id = e.id then evts else evts ++ [e]

/-- `updateEvent`: replaces every entry whose id matches; never appends. -/
def updateEvent (evts : List ClientEvent) (e : ClientEvent) : List ClientEvent :=
  evts.map fun x => if x.id = e.id then e else x

/-- `removeEvent`: drops every entry with the given id. -/
def removeEvent (evts : List ClientEvent) (i : Nat) : List ClientEvent :=
  evts.filter fun x => x.id ≠ i

/-- The ids of the rendered event set. -/
def idsOf (evts : List ClientEvent) : List Nat :=
  evts.map (·.id)

/-- One map-store mutation, for stating the store invariant over sequences. -/
inductive MapOp where
  | setOp (l : List ClientEvent)
  | addOp (e : ClientEvent)
  | updOp (e : ClientEvent)
  | remOp (i : Nat)
deriving DecidableEq, Repr

/-- Apply one map-store mutation. -/
def applyOp (evts : List ClientEvent) : MapOp → List ClientEvent
  | .setOp l => setEvents evts l
  | .addOp e => addEvent evts e
  | .updOp e => updateEvent evts e
  | .remOp i => removeEvent evts i

/-- Apply a sequence of map-store mutations, oldest first. -/
def applyOps (evts : List ClientEvent) (ops : List MapOp) : List ClientEvent :=
  ops.foldl applyOp evts

-- ── realtime change-feed handlers (src/app/(tabs)/index.tsx) ───────────────

/-- A change-feed row payload (`payload.new as DBEvent`): coordinates are
kept together with the flag recording whether both are finite, which is all
`dbEventToEvent` checks before building the client event. -/
structure FeedRow where
  id : Nat
  status : EvStatus
  lat : Int
  lon : Int
  coordsFinite : Bool
  pcount : Int
deriving DecidableEq, Repr

/-- Mirror of `dbEventToEvent`: `null` when the coordinates are not finite. -/
def dbEventToEvent (r : FeedRow) : Option ClientEvent :=
  if r.coordsFinite then
    some { id := r.id, status := r.status, lat := r.lat, lon := r.lon, pcount := r.pcount }
  else
    none

/-- `FETCH_RADIUS_METERS` = 5 km. -/
def FETCH_RADIUS_METERS : Int := 5000

/-- The INSERT branch of `subscribeRealtime`: drop non-active rows, parse,
apply the client-side radius guard (`dist <= FETCH_RADIUS_METERS`), then
`addEvent`. `dist` abstracts `haversineMeters(userCoords…, event…)` as a
function of the event's coordinates. -/
def handleInsert (dist : Int → Int → Int) (row : FeedRow)
    (evts : List ClientEvent) : List ClientEvent :=
  if row.status ≠ EvStatus.active then evts
  else
    match dbEventToEvent row with
    | Option.none => evts
    | some e => if dist e.lat e.lon ≤ FETCH_RADIUS_METERS then addEvent evts e else evts

/-- The UPDATE branch of `subscribeRealtime`: `removeEvent` when the row's
status is `expired`, otherwise parse and `updateEvent` — with no distance
check of any kind. -/
def handleUpdate (row : FeedRow) (evts : List ClientEvent) : List ClientEvent :=
  if row.status = EvStatus.expired then removeEvent evts row.id
  else
    match dbEventToEvent row with
    | Option.none => evts
    | some e => updateEvent evts e

/-- The DELETE branch of `subscribeRealtime`: `removeEvent` when the payload
carries an id. -/
def handleDelete (oldId : Option Nat) (evts : List ClientEvent) : List ClientEvent :=
  match oldId with
  | some i => removeEvent evts i
  | Option.none => evts

-- ── change-feed re-subscription (subscribeRealtime teardown order) ─────────

/-- Successive values of the set of open change-feed subscriptions while
`subscribeRealtime` runs, given the previously open subscription (the value
of `channelRef.current`) and the id of the replacement channel. The source
order is: `removeChannel` the existing channel first, then build and
`subscribe` the new one. -/
def subscribeRealtimeTrace (prev : Option Nat) (fresh : Nat) : List (List Nat) :=
  match prev with
  | some p => [[p], [], [fresh]]
  | Option.none => [[], [fresh]]

-- ── spec-side predicate (for refinement comparison only) ───────────────────

/-- Modelled from the spec: the CreateEvent precondition violations as the
spec words them — "title length ∈ [10,60]; expiresAt ∈ (now+1h, now+26h];
point coordinates finite" — with the stated half-open window, for comparison
against the handler's own checks. -/
def specCreatePreconditionViolated (inp : CreateInput) : Bool :=
  inp.title.length < 10 ∨ inp.title.length > 60 ∨
    ¬(inp.nowMs + ONE_HOUR_MS < inp.expiresAtMs ∧
        inp.expiresAtMs ≤ inp.nowMs + 26 * ONE_HOUR_MS) ∨
    ¬inp.latFinite ∨ ¬inp.lonFinite

-- ── concrete instances used by counterexamples and witnesses ───────────────

/-- All external calls succeed. -/
def envAllOk : CreateEnv := ⟨true, true, true, true, true⟩

/-- Messaging-channel creation fails; everything before it succeeds. -/
def envStreamFail : CreateEnv := ⟨true, true, true, true, false⟩

/-- Caller is not verified; all external calls succeed. -/
def envUnverified : CreateEnv := ⟨true, false, true, true, true⟩

/-- A valid create request: 10-character title, expiry two hours out. -/
def inpValid : CreateInput :=
  { title := "0123456789".toList, expiresAtMs := 7200000, nowMs := 0,
    latFinite := true, lonFinite := true, verifiedOnly := false }

/-- A create request whose expiry is exactly now + 1 h. -/
def inpBoundary : CreateInput :=
  { title := "0123456789".toList, expiresAtMs := 3600000, nowMs := 0,
    latFinite := true, lonFinite := true, verifiedOnly := false }

/-- The empty relational store. -/
def dbEmpty : DB := ⟨[], []⟩

/-- A store in which user 7 already hosts one active event. -/
def dbOneActive : DB :=
  ⟨[{ id := 0, host := 7, participant_count := 1, status := .active,
      verified_only := false }], [⟨0, 7⟩]⟩

/-- An active, non-gated event row. -/
def activeEv : EventRow :=
  { id := 0, host := 3, participant_count := 1, status := .active, verified_only := false }

/-- An active, verified-only event row. -/
def gatedEv : EventRow :=
  { id := 0, host := 3, participant_count := 1, status := .active, verified_only := true }

/-- Join environment for the concurrent-duplicate race: no row at the
pre-check, uniqueness conflict at the insert. -/
def envConflict : JoinEnv :=
  ⟨some activeEv, .fetched "none", false, .uniqueConflict, true⟩

/-- Join environment where the pre-check already finds the row. -/
def envAlreadyRow : JoinEnv :=
  ⟨some activeEv, .fetched "none", true, .inserted, true⟩

/-- Join environment: verified-only event and a failing profile read. -/
def envProfileErr : JoinEnv :=
  ⟨some gatedEv, .storeError, false, .inserted, true⟩

/-- A feed row for an active event with finite coordinates. -/
def rowNearActive : FeedRow :=
  { id := 1, status := .active, lat := 0, lon := 0, coordsFinite := true, pcount := 2 }

/-- Distance function placing every point at 0 m from the user. -/
def distZero : Int → Int → Int := fun _ _ => 0

/-- Distance function placing every point 10 km from the user. -/
def distFar : Int → Int → Int := fun _ _ => 10000

/-- The interleaving in which both requests pass the pre-check before either
inserts, so the second insert hits the uniqueness conflict. -/
def schedRace : List Bool := [true, false, true, false, true]

/-- A rendered client event with id 1. -/
def evA : ClientEvent := ⟨1, .active, 0, 0, 1⟩

/-- A rendered client event with id 2. -/
def evB : ClientEvent := ⟨2, .active, 5, 5, 1⟩

/-- A sample mutation sequence exercising every map-store operation. -/
def opsSample : List MapOp :=
  [.setOp [evA], .addOp evB, .updOp ⟨1, .active, 0, 0, 3⟩,
    .addOp ⟨2, .expired, 0, 0, 1⟩, .remOp 1]

/-- A feed UPDATE row for the already-rendered event id 1 whose new payload
sits far from the user (latitude/longitude 9999). -/
def rowFarUpd : FeedRow :=
  { id := 1, status := .active, lat := 9999, lon := 9999, coordsFinite := true,
    pcount := 5 }

-- ═══════════════════════════════════════════════════════════════════════════
-- Helper lemmas
-- ═══════════════════════════════════════════════════════════════════════════

theorem find?_map_id_pres (f : EventRow → EventRow) (hf : ∀ r, (f r).id = r.id)
    (l : List EventRow) (e : EventId) :
    (l.map f).find? (fun r => r.id = e) = (l.find? (fun r => r.id = e)).map f := by
  induction l with
  | nil => rfl
  | cons r t ih =>
    by_cases h : r.id = e
    · simp [List.find?, hf, h]
    · simp [List.find?, hf, h, ih]

theorem countOf_insertParticipant (db : DB) (e : EventId) (u : UserId) :
    countOf (insertParticipant db e u) e = (countOf db e).map (· + 1) := by
  unfold countOf insertParticipant
  rw [find?_map_id_pres _ (fun r => by by_cases h : r.id = e <;> simp [h])]
  cases hfind : db.events.find? (fun r => r.id = e) with
  | none => simp
  | some r =>
    have hid : r.id = e := by
      have := List.find?_some hfind
      simpa using this
    simp [hid]

theorem countOf_deleteParticipant (db : DB) (e : EventId) (u : UserId) :
    countOf (deleteParticipant db e u) e = (countOf db e).map (· - 1) := by
  unfold countOf deleteParticipant
  rw [find?_map_id_pres _ (fun r => by by_cases h : r.id = e <;> simp [h])]
  cases hfind : db.events.find? (fun r => r.id = e) with
  | none => simp
  | some r =>
    have hid : r.id = e := by
      have := List.find?_some hfind
      simpa using this
    simp [hid]

theorem eventExists_false_forall {db : DB} {e : EventId}
    (h : eventExists db e = false) : ∀ r ∈ db.events, r.id ≠ e := by
  intro r hr hcontra
  have htrue : eventExists db e = true := by
    unfold eventExists
    exact List.any_eq_true.2 ⟨r, hr, by simp [hcontra]⟩
  simp [htrue] at h

theorem partsOf_nil_forall {db : DB} {e : EventId}
    (h : partsOf db e = []) : ∀ p ∈ db.participants, p.event ≠ e := by
  intro p hp hcontra
  have hmem : p ∈ db.participants.filter fun q => q.event = e :=
    List.mem_filter.2 ⟨hp, by simp [hcontra]⟩
  unfold partsOf at h
  rw [h] at hmem
  simp at hmem

theorem createSaga_db2_count {db : DB} {caller : UserId} {freshId : EventId}
    (hfresh : eventExists db freshId = false) (row : EventRow)
    (hid : row.id = freshId) (hcnt : row.participant_count = 0) :
    countOf (insertParticipant (insertEvent db row) freshId caller) freshId = some 1 := by
  rw [countOf_insertParticipant]
  have hbase : countOf (insertEvent db row) freshId = some 0 := by
    unfold countOf insertEvent
    have hnone : db.events.find? (fun r => r.id = freshId) = Option.none := by
      rw [List.find?_eq_none]
      intro r hr
      simpa using eventExists_false_forall hfresh r hr
    simp [List.find?_append, hnone, List.find?, hid, hcnt]
  rw [hbase]
  rfl

theorem createSaga_db2_parts {db : DB} {caller : UserId} {freshId : EventId}
    (hparts : partsOf db freshId = []) (row : EventRow) :
    partsOf (insertParticipant (insertEvent db row) freshId caller) freshId
      = [⟨freshId, caller⟩] := by
  unfold partsOf insertParticipant insertEvent
  simp only [List.filter_append]
  have h0 : db.participants.filter (fun p => p.event = freshId) = [] := by
    simpa [partsOf] using hparts
  simp [h0]

theorem map_inc_id_on (l : List EventRow) (e : EventId) (h : ∀ r ∈ l, r.id ≠ e) :
    (l.map fun r =>
      if r.id = e then { r with participant_count := r.participant_count + 1 } else r)
      = l := by
  induction l with
  | nil => rfl
  | cons r t ih =>
    have hr : r.id ≠ e := h r (by simp)
    simp only [List.map_cons, if_neg hr, List.cons.injEq, true_and]
    exact ih fun x hx => h x (by simp [hx])

theorem cascade_restores {db : DB} {caller : UserId} {freshId : EventId}
    (hfresh : eventExists db freshId = false) (hparts : partsOf db freshId = [])
    (row : EventRow) (hid : row.id = freshId) :
    deleteEventCascade (insertParticipant (insertEvent db row) freshId caller) freshId
      = db := by
  have hev : ∀ r ∈ db.events, r.id ≠ freshId := eventExists_false_forall hfresh
  have hpp : ∀ p ∈ db.participants, p.event ≠ freshId := partsOf_nil_forall hparts
  obtain ⟨ev, pa⟩ := db
  unfold deleteEventCascade insertParticipant insertEvent
  simp only [List.map_append, List.map_cons, List.map_nil, List.filter_append]
  rw [map_inc_id_on ev freshId hev, if_pos hid]
  have h1 : ev.filter (fun r => r.id ≠ freshId) = ev :=
    List.filter_eq_self.2 fun r hr => by simpa using hev r hr
  have h2 : pa.filter (fun p => p.event ≠ freshId) = pa :=
    List.filter_eq_self.2 fun p hp => by simpa using hpp p hp
  have h3 : List.filter (fun (r : EventRow) => r.id ≠ freshId)
      [{ row with participant_count := row.participant_count + 1 }] = [] := by
    simp [hid]
  have h4 : List.filter (fun (p : PartRow) => p.event ≠ freshId)
      [(⟨freshId, caller⟩ : PartRow)] = [] := by
    simp
  rw [h1, h2, h3, h4]
  simp

theorem createEvent_success_run (db : DB) (env : CreateEnv) (caller : UserId)
    (freshId : EventId) (inp : CreateInput)
    (hbody : createBodyInvalid inp = false) (hexp : expiryWindowInvalid inp = false)
    (hpf : env.profileFetchOk = true)
    (hquota : ¬(¬env.verified ∧ activeCountOf db caller ≥ 1))
    (hei : env.eventInsertOk = true) (hpi : env.participantInsertOk = true)
    (hsc : env.streamCreateOk = true) :
    createEvent db env caller freshId inp =
      (insertParticipant (insertEvent db (newEventRow caller freshId inp.verifiedOnly))
          freshId caller,
        CreateResult.created freshId,
        [StoreOp.insertEventOp freshId 0, StoreOp.insertParticipantOp freshId caller,
          StoreOp.streamCreateChannel freshId]) := by
  have hq2 : ¬(env.verified = false ∧ 1 ≤ activeCountOf db caller) := fun hc =>
    hquota ⟨by simp [hc.1], hc.2⟩
  unfold createEvent
  simp [hbody, hexp, hpf, hq2, hei, hpi, hsc]

theorem createEvent_chatfail_run (db : DB) (env : CreateEnv) (caller : UserId)
    (freshId : EventId) (inp : CreateInput)
    (hbody : createBodyInvalid inp = false) (hexp : expiryWindowInvalid inp = false)
    (hpf : env.profileFetchOk = true)
    (hquota : ¬(¬env.verified ∧ activeCountOf db caller ≥ 1))
    (hei : env.eventInsertOk = true) (hpi : env.participantInsertOk = true)
    (hsc : env.streamCreateOk = false) :
    createEvent db env caller freshId inp =
      (deleteEventCascade
          (insertParticipant (insertEvent db (newEventRow caller freshId inp.verifiedOnly))
            freshId caller) freshId,
        CreateResult.chatInitFailed,
        [StoreOp.insertEventOp freshId 0, StoreOp.insertParticipantOp freshId caller,
          StoreOp.streamCreateChannel freshId, StoreOp.deleteEventOp freshId]) := by
  have hq2 : ¬(env.verified = false ∧ 1 ≤ activeCountOf db caller) := fun hc =>
    hquota ⟨by simp [hc.1], hc.2⟩
  unfold createEvent
  simp [hbody, hexp, hpf, hq2, hei, hpi, hsc]

theorem createEvent_res_not_invalid (db : DB) (env : CreateEnv) (caller : UserId)
    (freshId : EventId) (inp : CreateInput)
    (hbody : createBodyInvalid inp = false) (hexp : expiryWindowInvalid inp = false) :
    (createEvent db env caller freshId inp).2.1 ≠ CreateResult.invalidBody ∧
    (createEvent db env caller freshId inp).2.1 ≠ CreateResult.invalidExpiry := by
  by_cases h1 : env.profileFetchOk = true <;>
    by_cases h2v : env.verified = true <;>
      by_cases h2c : 1 ≤ activeCountOf db caller <;>
        by_cases h3 : env.eventInsertOk = true <;>
          by_cases h4 : env.participantInsertOk = true <;>
            by_cases h5 : env.streamCreateOk = true <;>
              simp [createEvent, hbody, hexp, h1, h2v, h2c, h3, h4, h5]

-- ═══════════════════════════════════════════════════════════════════════════
-- C6 — quota check: soft limit-reached with no writes
-- ═══════════════════════════════════════════════════════════════════════════

/-- C6 (confirmed): a CreateEvent call that passes validation, from a caller
who is not verified and already hosts at least one active event, returns the
soft LIMIT_REACHED result, leaves the store unchanged, and issues no store or
messaging operation. -/
theorem create_quota_soft_limit_no_writes
    (db : DB) (env : CreateEnv) (caller : UserId) (freshId : EventId) (inp : CreateInput)
    (hbody : createBodyInvalid inp = false) (hexp : expiryWindowInvalid inp = false)
    (hpf : env.profileFetchOk = true) (hver : env.verified = false)
    (hcnt : activeCountOf db caller ≥ 1) :
    createEvent db env caller freshId inp = (db, CreateResult.limitReached, []) := by
  unfold createEvent
  simp [hbody, hexp, hpf, hver, hcnt]

/-- Witness for C6: user 7, unverified, with one active event in the store. -/
theorem create_quota_soft_limit_no_writes_witness :
    createEvent dbOneActive envUnverified 7 5 inpValid
      = (dbOneActive, CreateResult.limitReached, []) :=
  create_quota_soft_limit_no_writes dbOneActive envUnverified 7 5 inpValid
    (by decide) (by decide) (by decide) (by decide) (by decide)

-- ═══════════════════════════════════════════════════════════════════════════
-- C5 — participant_count starts at 0 and the trigger brings it to 1
-- ═══════════════════════════════════════════════════════════════════════════

/-- C5 (confirmed): CreateEvent inserts the Event row with
`participant_count = 0` (visible as the `insertEventOp freshId 0` operation);
the trigger adds exactly one on every Participant insert and removes exactly
one on every Participant delete (the two universally quantified conjuncts);
and a successful CreateEvent therefore ends with exactly one Participant row
for the new event and `participant_count = 1`. -/
theorem create_starts_zero_trigger_yields_one
    (db : DB) (env : CreateEnv) (caller : UserId) (freshId : EventId) (inp : CreateInput)
    (hbody : createBodyInvalid inp = false) (hexp : expiryWindowInvalid inp = false)
    (hpf : env.profileFetchOk = true)
    (hquota : ¬(¬env.verified ∧ activeCountOf db caller ≥ 1))
    (hei : env.eventInsertOk = true) (hpi : env.participantInsertOk = true)
    (hsc : env.streamCreateOk = true)
    (hfresh : eventExists db freshId = false) (hparts : partsOf db freshId = []) :
    (createEvent db env caller freshId inp).2.1 = CreateResult.created freshId ∧
    StoreOp.insertEventOp freshId 0 ∈ (createEvent db env caller freshId inp).2.2 ∧
    countOf (createEvent db env caller freshId inp).1 freshId = some 1 ∧
    partsOf (createEvent db env caller freshId inp).1 freshId = [⟨freshId, caller⟩] ∧
    (∀ (d : DB) (e : EventId) (u : UserId),
      countOf (insertParticipant d e u) e = (countOf d e).map (· + 1)) ∧
    (∀ (d : DB) (e : EventId) (u : UserId),
      countOf (deleteParticipant d e u) e = (countOf d e).map (· - 1)) := by
  rw [createEvent_success_run db env caller freshId inp hbody hexp hpf hquota hei hpi hsc]
  refine ⟨rfl, by simp, ?_, ?_, countOf_insertParticipant, countOf_deleteParticipant⟩
  · exact createSaga_db2_count hfresh _ rfl rfl
  · exact createSaga_db2_parts hparts _

/-- Witness for C5: empty store, fresh id 1, caller 7, everything succeeds. -/
theorem create_starts_zero_trigger_yields_one_witness :
    (createEvent dbEmpty envAllOk 7 1 inpValid).2.1 = CreateResult.created 1 ∧
    countOf (createEvent dbEmpty envAllOk 7 1 inpValid).1 1 = some 1 ∧
    partsOf (createEvent dbEmpty envAllOk 7 1 inpValid).1 1 = [⟨1, 7⟩] := by
  have h := create_starts_zero_trigger_yields_one dbEmpty envAllOk 7 1 inpValid
    (by decide) (by decide) (by decide) (by decide) (by decide) (by decide) (by decide)
    (by decide) (by decide)
  exact ⟨h.1, h.2.2.1, h.2.2.2.1⟩

-- ═══════════════════════════════════════════════════════════════════════════
-- C1 — compensation when messaging-channel creation fails
-- ═══════════════════════════════════════════════════════════════════════════

/-- Counterexample to C1 as stated: with both inserts succeeded and channel
creation failing, the orchestrator's compensation issues no delete of the
Participant row — the only delete it issues is of the Event row (the
Participant row disappears through the store's ON DELETE CASCADE). The claim
says the orchestrator deletes the Participant row and the Event row in
reverse order of creation. -/
theorem create_compensation_issues_no_participant_delete :
    (createEvent dbEmpty envStreamFail 7 1 inpValid).2.1 = CreateResult.chatInitFailed ∧
    StoreOp.insertParticipantOp 1 7 ∈ (createEvent dbEmpty envStreamFail 7 1 inpValid).2.2 ∧
    StoreOp.deleteParticipantOp 1 7 ∉ (createEvent dbEmpty envStreamFail 7 1 inpValid).2.2 := by
  decide

/-- C1 (amended): when the Event and Participant inserts succeed but the
messaging-channel creation fails, the orchestrator issues a single delete of
the Event row (the Participant row is removed by the store's cascade, not by
an orchestrator-issued delete), returns the chat-init-failed error, and
afterwards the Event row does not exist in the store — in fact the store is
exactly as before the call. -/
theorem create_channel_failure_compensation
    (db : DB) (env : CreateEnv) (caller : UserId) (freshId : EventId) (inp : CreateInput)
    (hbody : createBodyInvalid inp = false) (hexp : expiryWindowInvalid inp = false)
    (hpf : env.profileFetchOk = true)
    (hquota : ¬(¬env.verified ∧ activeCountOf db caller ≥ 1))
    (hei : env.eventInsertOk = true) (hpi : env.participantInsertOk = true)
    (hsc : env.streamCreateOk = false)
    (hfresh : eventExists db freshId = false) (hparts : partsOf db freshId = []) :
    (createEvent db env caller freshId inp).2.1 = CreateResult.chatInitFailed ∧
    (createEvent db env caller freshId inp).1 = db ∧
    eventExists (createEvent db env caller freshId inp).1 freshId = false ∧
    (createEvent db env caller freshId inp).2.2 =
      [StoreOp.insertEventOp freshId 0, StoreOp.insertParticipantOp freshId caller,
        StoreOp.streamCreateChannel freshId, StoreOp.deleteEventOp freshId] := by
  rw [createEvent_chatfail_run db env caller freshId inp hbody hexp hpf hquota hei hpi hsc]
  have hrestore := @cascade_restores db caller freshId hfresh hparts
    (newEventRow caller freshId inp.verifiedOnly) rfl
  exact ⟨rfl, hrestore, by rw [hrestore]; exact hfresh, rfl⟩

/-- Witness for the amended C1: empty store, channel creation failing. -/
theorem create_channel_failure_compensation_witness :
    (createEvent dbEmpty envStreamFail 7 1 inpValid).1 = dbEmpty ∧
    eventExists (createEvent dbEmpty envStreamFail 7 1 inpValid).1 1 = false := by
  have h := create_channel_failure_compensation dbEmpty envStreamFail 7 1 inpValid
    (by decide) (by decide) (by decide) (by decide) (by decide) (by decide) (by decide)
    (by decide) (by decide)
  exact ⟨h.2.1, h.2.2.1⟩

-- ═══════════════════════════════════════════════════════════════════════════
-- C7 — validation characterisation
-- ═══════════════════════════════════════════════════════════════════════════

/-- Counterexample to C7 as stated: a request whose `expiresAt` equals
`now + 1h` exactly lies outside the spec's half-open window `(now+1h, now+26h]`
(so the claim says it is rejected), yet the handler's check `diffMs <
ONE_HOUR_MS` does not fire and the request is accepted and the event created. -/
theorem create_accepts_expiry_exactly_one_hour :
    specCreatePreconditionViolated inpBoundary = true ∧
    createBodyInvalid inpBoundary = false ∧
    expiryWindowInvalid inpBoundary = false ∧
    (createEvent dbEmpty envAllOk 7 1 inpBoundary).2.1 = CreateResult.created 1 := by
  decide

/-- C7 (amended): CreateEvent rejects a request with a validation error —
performing no writes — if and only if the trimmed title length is outside
[10,60], or a coordinate is not finite, or `expiresAt` lies outside the
closed interval [now+1h, now+26h] (both endpoints accepted). -/
theorem create_validation_characterisation
    (db : DB) (env : CreateEnv) (caller : UserId) (freshId : EventId) (inp : CreateInput) :
    (((createEvent db env caller freshId inp).2.1 = CreateResult.invalidBody ∨
      (createEvent db env caller freshId inp).2.1 = CreateResult.invalidExpiry) ↔
      ((trimChars inp.title).length < 10 ∨ 60 < (trimChars inp.title).length ∨
        inp.latFinite = false ∨ inp.lonFinite = false ∨
        ¬(inp.nowMs + ONE_HOUR_MS ≤ inp.expiresAtMs ∧
            inp.expiresAtMs ≤ inp.nowMs + 26 * ONE_HOUR_MS))) ∧
    (((createEvent db env caller freshId inp).2.1 = CreateResult.invalidBody ∨
      (createEvent db env caller freshId inp).2.1 = CreateResult.invalidExpiry) →
      (createEvent db env caller freshId inp).1 = db ∧
      (createEvent db env caller freshId inp).2.2 = []) := by
  have hbIff : createBodyInvalid inp = true ↔
      ((trimChars inp.title).length < 10 ∨ 60 < (trimChars inp.title).length ∨
        inp.latFinite = false ∨ inp.lonFinite = false) := by
    simp [createBodyInvalid, Bool.not_eq_true]
  have hwIff : expiryWindowInvalid inp = true ↔
      ¬(inp.nowMs + ONE_HOUR_MS ≤ inp.expiresAtMs ∧
          inp.expiresAtMs ≤ inp.nowMs + 26 * ONE_HOUR_MS) := by
    simp only [expiryWindowInvalid, ONE_HOUR_MS, decide_eq_true_eq]
    omega
  by_cases hb : createBodyInvalid inp = true
  · have hres : createEvent db env caller freshId inp = (db, .invalidBody, []) := by
      unfold createEvent
      rw [if_pos hb]
    rw [hres]
    refine ⟨⟨fun _ => ?_, fun _ => Or.inl rfl⟩, fun _ => ⟨rfl, rfl⟩⟩
    · rcases hbIff.1 hb with h | h | h | h
      · exact Or.inl h
      · exact Or.inr (Or.inl h)
      · exact Or.inr (Or.inr (Or.inl h))
      · exact Or.inr (Or.inr (Or.inr (Or.inl h)))
  · replace hb : createBodyInvalid inp = false := by
      cases h : createBodyInvalid inp
      · rfl
      · exact absurd h hb
    by_cases he : expiryWindowInvalid inp = true
    · have hres : createEvent db env caller freshId inp = (db, .invalidExpiry, []) := by
        unfold createEvent
        rw [if_neg (by simp [hb]), if_pos he]
      rw [hres]
      refine ⟨⟨fun _ => ?_, fun _ => Or.inr rfl⟩, fun _ => ⟨rfl, rfl⟩⟩
      · exact Or.inr (Or.inr (Or.inr (Or.inr (hwIff.1 he))))
    · replace he : expiryWindowInvalid inp = false := by
        cases h : expiryWindowInvalid inp
        · rfl
        · exact absurd h he
      have hnot := createEvent_res_not_invalid db env caller freshId inp hb he
      refine ⟨⟨fun h => ?_, fun h => ?_⟩, fun h => ?_⟩
      · rcases h with h | h
        · exact absurd h hnot.1
        · exact absurd h hnot.2
      · exfalso
        rcases h with h | h | h | h | h
        · exact (by simp [hbIff.2 (Or.inl h)] at hb : False)
        · exact (by simp [hbIff.2 (Or.inr (Or.inl h))] at hb : False)
        · exact (by simp [hbIff.2 (Or.inr (Or.inr (Or.inl h)))] at hb : False)
        · exact (by simp [hbIff.2 (Or.inr (Or.inr (Or.inr h)))] at hb : False)
        · exact (by simp [hwIff.2 h] at he : False)
      · rcases h with h | h
        · exact absurd h hnot.1
        · exact absurd h hnot.2

/-- Witness for the amended C7: a valid request is not rejected; a request
with `expiresAt = now + 26h` exactly is also not rejected. -/
theorem create_validation_characterisation_witness :
    ¬((createEvent dbEmpty envAllOk 7 1 inpValid).2.1 = CreateResult.invalidBody ∨
      (createEvent dbEmpty envAllOk 7 1 inpValid).2.1 = CreateResult.invalidExpiry) := by
  intro h
  have hc := (create_validation_characterisation dbEmpty envAllOk 7 1 inpValid).1.1 h
  revert hc
  decide

-- ═══════════════════════════════════════════════════════════════════════════
-- C2 — double join is idempotent (sequential and concurrent)
-- ═══════════════════════════════════════════════════════════════════════════

theorem reachCfgs_closed : ∀ c ∈ reachCfgs, ∀ b : Bool, stepOne c b ∈ reachCfgs := by
  decide

theorem initCfg_mem : initCfg ∈ reachCfgs := by
  decide

theorem runSched_mem : ∀ (sched : List Bool) (c : Cfg),
    c ∈ reachCfgs → runSched c sched ∈ reachCfgs
  | [], _, hc => hc
  | b :: t, c, hc => runSched_mem t (stepOne c b) (reachCfgs_closed c hc b)

theorem reach_done_post : ∀ c ∈ reachCfgs, c.a.isDone = true → c.b.isDone = true →
    c.row = true ∧ c.mem = true ∧
      ((c.a = RPc.doneNew ∧ c.b = RPc.doneOld) ∨
        (c.a = RPc.doneOld ∧ c.b = RPc.doneNew)) := by
  decide

/-- C2 (confirmed): for every interleaving of two join-event requests for the
same (event, caller) pair — the sequential schedules included — once both
requests have produced their responses, the pair has its participant row
(`row = true`, a single row by the composite primary key), the caller is a
channel member (`mem = true`), and exactly one request reports joined-new
while the other reports already-member; neither reports an error. -/
theorem join_double_idempotent (sched : List Bool)
    (ha : (runSched initCfg sched).a.isDone = true)
    (hb : (runSched initCfg sched).b.isDone = true) :
    (runSched initCfg sched).row = true ∧ (runSched initCfg sched).mem = true ∧
      (((runSched initCfg sched).a = RPc.doneNew ∧
          (runSched initCfg sched).b = RPc.doneOld) ∨
        ((runSched initCfg sched).a = RPc.doneOld ∧
          (runSched initCfg sched).b = RPc.doneNew)) :=
  reach_done_post (runSched initCfg sched)
    (runSched_mem sched initCfg initCfg_mem) ha hb

/-- Witness for C2 at the conflict interleaving `schedRace`, in which both
requests pass the pre-existing-row check before either inserts. -/
theorem join_double_idempotent_witness :
    (runSched initCfg schedRace).row = true ∧ (runSched initCfg schedRace).mem = true ∧
      (((runSched initCfg schedRace).a = RPc.doneNew ∧
          (runSched initCfg schedRace).b = RPc.doneOld) ∨
        ((runSched initCfg schedRace).a = RPc.doneOld ∧
          (runSched initCfg schedRace).b = RPc.doneNew)) :=
  join_double_idempotent schedRace (by decide) (by decide)

-- ═══════════════════════════════════════════════════════════════════════════
-- C3 — step 5 channel-member add on each already-joined path
-- ═══════════════════════════════════════════════════════════════════════════

/-- Counterexample to C3 as stated: on the uniqueness-conflict path (no row at
the pre-check, insert fails with 23505) the handler resolves the call as
already-member without attempting the channel-member add at all, while the
claim says the caller is added as a messaging-channel member on every call
that resolves as already-joined. -/
theorem join_conflict_path_skips_stream_add :
    (joinHandler envConflict).1 = JoinResult.alreadyMember ∧
    (joinHandler envConflict).2.streamAddAttempted = false := by
  decide

/-- C3 (amended): on a call that reaches step 5 of an active, passable event:
the pre-existing-row path always attempts the channel-member add and returns
already-member success whether or not the add succeeds; the
uniqueness-conflict path returns already-member success without attempting
the add; a failed add after a fresh insert deletes the new row and returns
the hard join-chat error; a successful add after a fresh insert returns
joined-new. -/
theorem join_step5_stream_add_behaviour
    (env : JoinEnv) (ev : EventRow)
    (hev : env.eventRow = some ev) (hact : ev.status = EvStatus.active)
    (hgate : ev.verified_only = false ∨
      env.profileFetch = ProfileFetch.fetched "verified") :
    (env.rowAtCheck = true →
      joinHandler env = (JoinResult.alreadyMember,
        { insertedRow := false, deletedRow := false, streamAddAttempted := true })) ∧
    (env.rowAtCheck = false → env.insertOutcome = InsertOutcome.uniqueConflict →
      joinHandler env = (JoinResult.alreadyMember, JoinEffects.none)) ∧
    (env.rowAtCheck = false → env.insertOutcome = InsertOutcome.inserted →
      env.streamAddOk = false →
      joinHandler env = (JoinResult.joinChatFailed,
        { insertedRow := true, deletedRow := true, streamAddAttempted := true })) ∧
    (env.rowAtCheck = false → env.insertOutcome = InsertOutcome.inserted →
      env.streamAddOk = true →
      joinHandler env = (JoinResult.joinedNew,
        { insertedRow := true, deletedRow := false, streamAddAttempted := true })) := by
  have hg : ¬(ev.verified_only = true ∧
      ¬(env.profileFetch = ProfileFetch.fetched "verified")) := by
    rcases hgate with h | h
    · intro hc
      rw [h] at hc
      exact Bool.false_ne_true hc.1
    · intro hc
      exact hc.2 h
  refine ⟨?_, ?_, ?_, ?_⟩ <;> intros <;> simp [joinHandler, hev, hact, hg, *]

/-- Witness for the amended C3: the pre-existing-row path attempts the
channel add and reports already-member. -/
theorem join_step5_stream_add_behaviour_witness :
    joinHandler envAlreadyRow = (JoinResult.alreadyMember,
      { insertedRow := false, deletedRow := false, streamAddAttempted := true }) :=
  (join_step5_stream_add_behaviour envAlreadyRow activeEv rfl rfl (Or.inl rfl)).1 rfl

-- ═══════════════════════════════════════════════════════════════════════════
-- C10 — profile-store failure on the verified_only gate
-- ═══════════════════════════════════════════════════════════════════════════

/-- C10 (confirmed): on an active event with `verified_only` set, a failing
read of the caller's profile row yields the soft VERIFIED_ONLY rejection with
no writes and no messaging call — at the interface indistinguishable from an
unverified caller. -/
theorem join_profile_error_soft_verified_only
    (env : JoinEnv) (ev : EventRow)
    (hev : env.eventRow = some ev) (hact : ev.status = EvStatus.active)
    (hvo : ev.verified_only = true) (hpf : env.profileFetch = ProfileFetch.storeError) :
    joinHandler env = (JoinResult.verifiedOnlySoft, JoinEffects.none) := by
  simp [joinHandler, hev, hact, hvo, hpf]

/-- Witness for C10: gated event, profile read failing. -/
theorem join_profile_error_soft_verified_only_witness :
    joinHandler envProfileErr = (JoinResult.verifiedOnlySoft, JoinEffects.none) :=
  join_profile_error_soft_verified_only envProfileErr gatedEv rfl rfl rfl rfl

-- ═══════════════════════════════════════════════════════════════════════════
-- C9 — map-store id-uniqueness invariant
-- ═══════════════════════════════════════════════════════════════════════════

theorem idsOf_updateEvent (s : List ClientEvent) (e : ClientEvent) :
    idsOf (updateEvent s e) = idsOf s := by
  induction s with
  | nil => rfl
  | cons x t ih =>
    simp only [updateEvent, idsOf, List.map_cons] at *
    rw [ih]
    by_cases h : x.id = e.id <;> simp [h]

theorem updateEvent_id_not_mem (s : List ClientEvent) (e : ClientEvent)
    (h : e.id ∉ idsOf s) : updateEvent s e = s := by
  induction s with
  | nil => rfl
  | cons x t ih =>
    have hx : x.id ≠ e.id := by
      intro hc
      exact h (by simp [idsOf, hc])
    have ht : e.id ∉ idsOf t := fun hc => h (by simp [idsOf] at hc ⊢; exact Or.inr hc)
    simp only [updateEvent] at ih ⊢
    simp only [List.map_cons]
    rw [if_neg hx, ih ht]

theorem nodup_addEvent (s : List ClientEvent) (e : ClientEvent)
    (h : (idsOf s).Nodup) : (idsOf (addEvent s e)).Nodup := by
  unfold addEvent
  by_cases hc : s.any (fun x => x.id = e.id) = true
  · simpa [hc] using h
  · have hne : e.id ∉ idsOf s := by
      intro hmem
      rcases List.mem_map.1 hmem with ⟨x, hx, hid⟩
      exact hc (List.any_eq_true.2 ⟨x, hx, by simp [hid]⟩)
    simp [hc, idsOf, List.nodup_append]
    exact ⟨by simpa [idsOf] using h, by simpa [idsOf] using hne⟩

theorem nodup_removeEvent (s : List ClientEvent) (i : Nat)
    (h : (idsOf s).Nodup) : (idsOf (removeEvent s i)).Nodup := by
  have hsub : (s.filter fun x => x.id ≠ i).Sublist s := List.filter_sublist s
  exact h.sublist (hsub.map _)

/-- C9 (confirmed): starting from a rendered set with pairwise-distinct ids,
any sequence of `setEvents` (with id-unique payloads), `addEvent`,
`updateEvent`, `removeEvent` keeps the ids pairwise distinct; moreover
`updateEvent` preserves the id multiset exactly, so it never adds an event
whose id is not already rendered. -/
theorem map_store_ids_nodup_invariant :
    ∀ (ops : List MapOp) (s : List ClientEvent),
      (idsOf s).Nodup →
      (∀ l, MapOp.setOp l ∈ ops → (idsOf l).Nodup) →
      (idsOf (applyOps s ops)).Nodup ∧
        ∀ (t : List ClientEvent) (e : ClientEvent), idsOf (updateEvent t e) = idsOf t := by
  intro ops
  induction ops with
  | nil => exact fun s hs _ => ⟨hs, idsOf_updateEvent⟩
  | cons op t ih =>
    intro s hs hset
    have hstep : (idsOf (applyOp s op)).Nodup := by
      cases op with
      | setOp l => exact hset l (by simp)
      | addOp e => exact nodup_addEvent s e hs
      | updOp e => exact (idsOf_updateEvent s e) ▸ hs
      | remOp i => exact nodup_removeEvent s i hs
    exact ih (applyOp s op) hstep fun l hl => hset l (by simp [hl])

/-- Witness for C9 on a concrete mutation sequence from the empty set. -/
theorem map_store_ids_nodup_invariant_witness :
    (idsOf (applyOps [] opsSample)).Nodup :=
  (map_store_ids_nodup_invariant opsSample [] (by decide)
    (by
      intro l hl
      simp [opsSample] at hl
      subst hl
      decide)).1

-- ═══════════════════════════════════════════════════════════════════════════
-- C4 — change-feed admission and the distance filter
-- ═══════════════════════════════════════════════════════════════════════════

theorem dbEventToEvent_id {row : FeedRow} {e : ClientEvent}
    (h : dbEventToEvent row = some e) : e.id = row.id := by
  unfold dbEventToEvent at h
  by_cases hf : row.coordsFinite = true
  · rw [if_pos hf] at h
    simp only [Option.some.injEq] at h
    rw [← h]
  · rw [if_neg hf] at h
    exact absurd h (by simp)

theorem updateEvent_mem_of_id_mem (s : List ClientEvent) (e : ClientEvent)
    (h : e.id ∈ idsOf s) : e ∈ updateEvent s e := by
  induction s with
  | nil => simp [idsOf] at h
  | cons x t ih =>
    simp only [updateEvent, List.map_cons]
    by_cases hx : x.id = e.id
    · rw [if_pos hx]
      exact List.mem_cons_self e _
    · have ht : e.id ∈ idsOf t := by
        rcases List.mem_cons.1 h with hc | hc
        · exact absurd hc.symm hx
        · exact hc
      rw [if_neg hx]
      exact List.mem_cons_of_mem x (ih ht)

theorem updateEvent_id_unique (s : List ClientEvent) (e : ClientEvent) :
    ∀ x ∈ updateEvent s e, x.id = e.id → x = e := by
  intro x hx hid
  rcases List.mem_map.1 hx with ⟨y, hy, hyx⟩
  by_cases h : y.id = e.id
  · rw [← hyx, if_pos h]
  · rw [← hyx, if_neg h] at hid
    exact absurd hid h

/-- Counterexample to C4 as stated: a feed UPDATE for an active event at
distance 0 from the user (well within R = 5 km) whose id is not in the
rendered set is not admitted — the rendered set stays empty — while the
claim says a point at distance at most R with active status is admitted.
The UPDATE branch applies no distance filter and only replaces entries
already present. -/
theorem update_within_radius_not_admitted :
    handleUpdate rowNearActive [] = [] ∧
    dbEventToEvent rowNearActive =
      some { id := 1, status := .active, lat := 0, lon := 0, pcount := 2 } ∧
    distZero 0 0 ≤ FETCH_RADIUS_METERS := by
  decide

/-- C4 (amended): the exact distance filter is re-applied to inserts only —
an active insert parsed at distance > R is not admitted, one at distance ≤ R
is admitted, and a non-active insert is ignored; an update applies no
distance check: it removes the pin whenever the row reports expired status
(regardless of distance), never admits an id that is not already rendered,
and for an already-rendered id replaces that entry's payload with the new
one — at any distance, as the final conjunct holds with no constraint on
the payload's position; a deletion removes the pin regardless of distance. -/
theorem feed_handlers_admission :
    ∀ (dist : Int → Int → Int) (row : FeedRow) (evts : List ClientEvent)
      (e : ClientEvent) (i : Nat),
      (row.status = EvStatus.active → dbEventToEvent row = some e →
        FETCH_RADIUS_METERS < dist e.lat e.lon → handleInsert dist row evts = evts) ∧
      (row.status = EvStatus.active → dbEventToEvent row = some e →
        dist e.lat e.lon ≤ FETCH_RADIUS_METERS →
        row.id ∈ idsOf (handleInsert dist row evts)) ∧
      (row.status ≠ EvStatus.active → handleInsert dist row evts = evts) ∧
      (row.status = EvStatus.expired →
        ∀ x ∈ handleUpdate row evts, x.id ≠ row.id) ∧
      (row.status = EvStatus.active → row.id ∉ idsOf evts →
        handleUpdate row evts = evts) ∧
      (∀ x ∈ handleDelete (some i) evts, x.id ≠ i) ∧
      (row.status = EvStatus.active → dbEventToEvent row = some e →
        row.id ∈ idsOf evts →
        e ∈ handleUpdate row evts ∧
        (∀ x ∈ handleUpdate row evts, x.id = row.id → x = e) ∧
        idsOf (handleUpdate row evts) = idsOf evts) := by
  intro dist row evts e i
  refine ⟨?_, ?_, ?_, ?_, ?_, ?_, ?_⟩
  · intro hact hrow hd
    have hd2 : ¬(dist e.lat e.lon ≤ FETCH_RADIUS_METERS) := not_le.2 hd
    simp [handleInsert, hact, hrow, hd2]
  · intro hact hrow hd
    have heid : e.id = row.id := by
      unfold dbEventToEvent at hrow
      by_cases hf : row.coordsFinite = true
      · rw [if_pos hf] at hrow
        simp only [Option.some.injEq] at hrow
        rw [← hrow]
      · rw [if_neg hf] at hrow
        exact absurd hrow (by simp)
    have hgoal : row.id ∈ idsOf (addEvent evts e) := by
      unfold addEvent
      by_cases hc : evts.any (fun x => x.id = e.id) = true
      · rcases List.any_eq_true.1 hc with ⟨x, hx, hxe⟩
        rw [if_pos hc]
        exact List.mem_map.2 ⟨x, hx, by rw [← heid]; simpa using hxe⟩
      · rw [if_neg hc]
        simp [idsOf, heid]
    simpa [handleInsert, hact, hrow, hd] using hgoal
  · intro hact
    rw [handleInsert, if_pos hact]
  · intro hexp x hx
    rw [handleUpdate, if_pos hexp] at hx
    have := (List.mem_filter.1 hx).2
    simpa using this
  · intro hact hnm
    rw [handleUpdate, if_neg (by simp [hact])]
    cases hp : dbEventToEvent row with
    | none => rfl
    | some e2 =>
      have heid : e2.id = row.id := by
        unfold dbEventToEvent at hp
        by_cases hf : row.coordsFinite = true
        · rw [if_pos hf] at hp
          simp only [Option.some.injEq] at hp
          rw [← hp]
        · rw [if_neg hf] at hp
          exact absurd hp (by simp)
      exact updateEvent_id_not_mem evts e2 (heid ▸ hnm)
  · intro x hx
    rw [handleDelete] at hx
    have := (List.mem_filter.1 hx).2
    simpa using this
  · intro hact hrow hmem
    have heid : e.id = row.id := dbEventToEvent_id hrow
    have hred : handleUpdate row evts = updateEvent evts e := by
      simp [handleUpdate, hact, hrow]
    rw [hred]
    refine ⟨updateEvent_mem_of_id_mem evts e (by rw [heid]; exact hmem), ?_,
      idsOf_updateEvent evts e⟩
    intro x hx hxid
    exact updateEvent_id_unique evts e x hx (by rw [heid]; exact hxid)

/-- Witness for the amended C4: an active insert 10 km away is not admitted;
the same insert at distance 0 is; an active update for the already-rendered
id 1 replaces the entry with the new payload even though the payload lies
far away. -/
theorem feed_handlers_admission_witness :
    handleInsert distFar rowNearActive [] = [] ∧
    1 ∈ idsOf (handleInsert distZero rowNearActive []) ∧
    (⟨1, .active, 9999, 9999, 5⟩ : ClientEvent) ∈ handleUpdate rowFarUpd [evA] := by
  have h := feed_handlers_admission distFar rowNearActive []
    { id := 1, status := .active, lat := 0, lon := 0, pcount := 2 } 0
  have h2 := feed_handlers_admission distZero rowNearActive []
    { id := 1, status := .active, lat := 0, lon := 0, pcount := 2 } 0
  have h3 := feed_handlers_admission distZero rowFarUpd [evA]
    { id := 1, status := .active, lat := 9999, lon := 9999, pcount := 5 } 0
  exact ⟨h.1 rfl (by decide) (by decide), h2.2.1 rfl (by decide) (by decide),
    (h3.2.2.2.2.2.2 rfl (by decide) (by decide)).1⟩

-- ═══════════════════════════════════════════════════════════════════════════
-- C8 — re-subscription teardown order
-- ═══════════════════════════════════════════════════════════════════════════

/-- Counterexample to C8 as stated: re-subscribing while subscription 0 is
open passes through an intermediate state with no subscription open at all
(the previous channel is removed before the replacement is created), while
the claim says there is never a window with no subscription open and that
teardown happens only after the replacement is confirmed. -/
theorem resubscribe_empty_window :
    [] ∈ subscribeRealtimeTrace (some 0) 1 ∧
    (subscribeRealtimeTrace (some 0) 1).getLast? = some [1] := by
  decide

/-- C8 (amended): on every re-subscription at most one change-feed
subscription is open at any point (the previous one is removed before the
replacement is created), the final state has exactly the fresh subscription
open, and there is a window with no subscription open. -/
theorem resubscribe_at_most_one_open :
    ∀ (prev : Option Nat) (fresh : Nat),
      (∀ s ∈ subscribeRealtimeTrace prev fresh, s.length ≤ 1) ∧
      (subscribeRealtimeTrace prev fresh).getLast? = some [fresh] ∧
      [] ∈ subscribeRealtimeTrace prev fresh := by
  intro prev fresh
  cases prev <;> simp [subscribeRealtimeTrace]

/-- Witness for the amended C8 at a concrete re-subscription. -/
theorem resubscribe_at_most_one_open_witness :
    ([0] : List Nat).length ≤ 1 ∧ [] ∈ subscribeRealtimeTrace (some 0) 1 :=
  ⟨(resubscribe_at_most_one_open (some 0) 1).1 [0] (by decide),
    (resubscribe_at_most_one_open (some 0) 1).2.2⟩

end TravelApp
